import Mathlib

/-!
# Verification of the Hackathon-Water-Scarcity core

Shallow embedding of the repository's decision logic:

* `src/src/utils.py` — `is_pareto_efficient` (Pareto dominance analyzer);
* `src/src/policies/incentive_policies.py` — the four incentive policy
  functions `mixed_policy`, `fine_policy`, `subvention_policy`, `no_policy`;
* `src/src/utils/helpers.py` — `save_or_create` (figure persistence helper).

Numeric values are modelled as rationals (`ℚ`): all arithmetic the code
performs on them (subtraction of the constants 0.5 and 1.0, multiplication
by 5, order comparisons) is exact on the inputs considered, so `ℚ` is a
faithful model of the float computation away from non-finite values.
Non-finite values are modelled separately by the `EVal` type with IEEE-754
comparison semantics (every comparison involving NaN is false).
-/

/-- The bound object (`self`) the policy functions receive.  The only
attribute the source reads is `self.nb_actors` (in `no_policy`). -/
structure PolicyState where
  nb_actors : Nat
deriving DecidableEq

/-- `mixed_policy` from `incentive_policies.py`:
`actions = actions.astype(float) - 0.5; return -actions * 5`.
The seven contextual vectors and the two thresholds are accepted but not
read by the arithmetic, exactly as in the source. -/
def mixed_policy (_self : PolicyState) (actions : List ℚ)
    (_actors_priority _avg_incomes _water_pump _avg_pump _is_crisis
      _water_flows _quota : List ℚ) (_DOE _DCR : ℚ) : List ℚ :=
  let actions := actions.map (fun x => x - 1/2)
  actions.map (fun x => -x * 5)

/-- `fine_policy` from `incentive_policies.py`:
`actions = actions.astype(float) - 1.0; return -actions * 5`. -/
def fine_policy (_self : PolicyState) (actions : List ℚ)
    (_actors_priority _avg_incomes _water_pump _avg_pump _is_crisis
      _water_flows _quota : List ℚ) (_DOE _DCR : ℚ) : List ℚ :=
  let actions := actions.map (fun x => x - 1)
  actions.map (fun x => -x * 5)

/-- `subvention_policy` from `incentive_policies.py`:
`actions = actions.astype(float); return -actions * 5`.
`astype(float)` copies the array but preserves every value, so it is the
identity on the list of values. -/
def subvention_policy (_self : PolicyState) (actions : List ℚ)
    (_actors_priority _avg_incomes _water_pump _avg_pump _is_crisis
      _water_flows _quota : List ℚ) (_DOE _DCR : ℚ) : List ℚ :=
  let actions := actions.map (fun x => x)
  actions.map (fun x => -x * 5)

/-- `no_policy` from `incentive_policies.py`: `return np.zeros(self.nb_actors)`.
Note the length comes from the bound object, not from the action vector. -/
def no_policy (self : PolicyState) (_actions : List ℚ)
    (_actors_priority _avg_incomes _water_pump _avg_pump _is_crisis
      _water_flows _quota : List ℚ) (_DOE _DCR : ℚ) : List ℚ :=
  List.replicate self.nb_actors 0

/-- Row comparison `np.all(row <= c)`: every entry of `row` is `≤` the
corresponding entry of `c` (rows of a rectangular matrix have equal length). -/
def allLe (row c : List ℚ) : Bool :=
  (List.zipWith (fun x y => decide (x ≤ y)) row c).all id

/-- Row comparison `np.any(row < c)`: some entry of `row` is `<` the
corresponding entry of `c`. -/
def anyLt (row c : List ℚ) : Bool :=
  (List.zipWith (fun x y => decide (x < y)) row c).any id

/-- The scan `np.any(np.all(costs <= c, axis=1) & np.any(costs < c, axis=1))`:
some row of `costs` is `≤` `c` in every column and `<` in some column. -/
def dominatedBySome (costs : List (List ℚ)) (c : List ℚ) : Bool :=
  costs.any (fun row => allLe row c && anyLt row c)

/-- `is_pareto_efficient` from `utils.py`.  The loop fills a fresh boolean
array: entry `i` is `not np.any(np.all(costs <= c, axis=1) & np.any(costs < c,
axis=1))` for `c = costs[i]`; `costs` is never written inside the loop, so the
loop is a map over the rows. -/
def is_pareto_efficient (costs : List (List ℚ)) : List Bool :=
  costs.map (fun c => !dominatedBySome costs c)

/-- Elementwise difference of two vectors (`numpy` `-` on equal-length arrays). -/
def vecSub (u v : List ℚ) : List ℚ :=
  List.zipWith (fun x y => x - y) u v

/-- Abstract filesystem state for `helpers.py`: the set of existing
directories and the set of written files.  `os.makedirs` is abstracted to
create the requested directory (intermediate ancestors are irrelevant here
because the program only ever queries the full `dirname` it just created). -/
structure FS where
  dirs : List String
  files : List String
deriving DecidableEq

/-- `os.path.dirname` (POSIX): take the prefix up to the last `/`; if that
prefix is non-empty and not all slashes, strip its trailing slashes. -/
def pyDirname (s : String) : String :=
  let p := s.data
  let k := (p.reverse.takeWhile (fun c => c ≠ '/')).length
  let head := p.take (p.length - k)
  let head :=
    if head ≠ [] ∧ ¬ head.all (fun c => c = '/') then
      (head.reverse.dropWhile (fun c => c = '/')).reverse
    else head
  String.mk head

/-- `os.path.exists`: the path names an existing directory or file. -/
def pathExists (fs : FS) (p : String) : Bool :=
  fs.dirs.contains p || fs.files.contains p

/-- `os.makedirs(p)`: fails with `FileNotFoundError` on the empty path (as
CPython's `mkdir('')` does), fails with `FileExistsError` when the path
already exists, otherwise creates the directory. -/
def makedirs (fs : FS) (p : String) : Except String FS :=
  if p = "" then Except.error "FileNotFoundError"
  else if pathExists fs p then Except.error "FileExistsError"
  else Except.ok ⟨p :: fs.dirs, fs.files⟩

/-- `plt.savefig(p)`: the external collaborator writes the figure file. -/
def savefig (fs : FS) (p : String) : FS :=
  ⟨fs.dirs, p :: fs.files⟩

/-- `save_or_create` from `helpers.py`:
`if not os.path.exists(os.path.dirname(save_path)):
os.makedirs(os.path.dirname(save_path))` then `plt.savefig(save_path)`. -/
def save_or_create (fs : FS) (save_path : String) : Except String FS :=
  if pathExists fs (pyDirname save_path) = false then
    match makedirs fs (pyDirname save_path) with
    | Except.error e => Except.error e
    | Except.ok fs1 => Except.ok (savefig fs1 save_path)
  else Except.ok (savefig fs save_path)

/-- A heap of `numpy` arrays, for the frame/aliasing analysis: float vectors,
float matrices and boolean vectors, addressed by index.  Every array the
Python code touches lives here; an operation mutates an argument exactly when
it writes the heap cell the argument's reference points to. -/
structure Heap where
  vecs : List (List ℚ)
  mats : List (List (List ℚ))
  bvecs : List (List Bool)
deriving DecidableEq

/-- Dereference a float-vector reference. -/
def readVec (h : Heap) (r : Nat) : List ℚ := h.vecs.getD r []

/-- Allocate a fresh float vector (`astype`, arithmetic results, `np.zeros`):
appends a new cell and returns its reference. -/
def allocVec (h : Heap) (v : List ℚ) : Heap × Nat :=
  (⟨h.vecs ++ [v], h.mats, h.bvecs⟩, h.vecs.length)

/-- Dereference a float-matrix reference. -/
def readMat (h : Heap) (r : Nat) : List (List ℚ) := h.mats.getD r []

/-- Allocate a fresh boolean vector (`np.ones(..., dtype=bool)`). -/
def allocBVec (h : Heap) (v : List Bool) : Heap × Nat :=
  (⟨h.vecs, h.mats, h.bvecs ++ [v]⟩, h.bvecs.length)

/-- In-place update `arr[i] = b` of a boolean vector on the heap (the one
genuine mutation in the source, performed on `is_efficient` inside the loop
of `is_pareto_efficient`). -/
def writeBVec (h : Heap) (r i : Nat) (b : Bool) : Heap :=
  ⟨h.vecs, h.mats, h.bvecs.set r ((h.bvecs.getD r []).set i b)⟩

/-- Heap-level `mixed_policy`: `actions.astype(float) - 0.5` allocates a new
array bound to the local name, `-actions * 5` allocates the returned array;
the argument cell is only read. -/
def mixed_policy_heap (h : Heap) (_self : PolicyState)
    (actions _ap _ai _wp _avp _ic _wf _q : Nat) (_DOE _DCR : ℚ) : Heap × Nat :=
  let a := readVec h actions
  let (h1, t) := allocVec h (a.map (fun x => x - 1/2))
  allocVec h1 ((readVec h1 t).map (fun x => -x * 5))

/-- Heap-level `fine_policy`. -/
def fine_policy_heap (h : Heap) (_self : PolicyState)
    (actions _ap _ai _wp _avp _ic _wf _q : Nat) (_DOE _DCR : ℚ) : Heap × Nat :=
  let a := readVec h actions
  let (h1, t) := allocVec h (a.map (fun x => x - 1))
  allocVec h1 ((readVec h1 t).map (fun x => -x * 5))

/-- Heap-level `subvention_policy`. -/
def subvention_policy_heap (h : Heap) (_self : PolicyState)
    (actions _ap _ai _wp _avp _ic _wf _q : Nat) (_DOE _DCR : ℚ) : Heap × Nat :=
  let a := readVec h actions
  let (h1, t) := allocVec h (a.map (fun x => x))
  allocVec h1 ((readVec h1 t).map (fun x => -x * 5))

/-- Heap-level `no_policy`: `np.zeros(self.nb_actors)` allocates the result;
no argument cell is even read. -/
def no_policy_heap (h : Heap) (self : PolicyState)
    (_actions _ap _ai _wp _avp _ic _wf _q : Nat) (_DOE _DCR : ℚ) : Heap × Nat :=
  allocVec h (List.replicate self.nb_actors 0)

/-- Heap-level `is_pareto_efficient`: allocates the fresh boolean array
`np.ones(costs.shape[0], dtype=bool)`, then the loop re-reads `costs` from the
heap at each iteration and writes only the fresh boolean array. -/
def is_pareto_efficient_heap (h : Heap) (costs : Nat) : Heap × Nat :=
  let n := (readMat h costs).length
  let (h1, eff) := allocBVec h (List.replicate n true)
  let h2 := (List.range n).foldl
    (fun hh i => writeBVec hh eff i
      (!dominatedBySome (readMat hh costs) ((readMat hh costs).getD i []))) h1
  (h2, eff)

/-- A float value extended with the IEEE-754 non-finite values, for analysing
what the code does on NaN/Infinity inputs.  Finite values stay exact
rationals. -/
inductive EVal where
  | fin : ℚ → EVal
  | nan : EVal
  | pinf : EVal
  | ninf : EVal
deriving DecidableEq

/-- IEEE-754 `<=`: every comparison involving NaN is false. -/
def EVal.le : EVal → EVal → Bool
  | nan, _ => false
  | _, nan => false
  | ninf, _ => true
  | _, pinf => true
  | pinf, _ => false
  | fin _, ninf => false
  | fin a, fin b => decide (a ≤ b)

/-- IEEE-754 `<`: every comparison involving NaN is false. -/
def EVal.lt : EVal → EVal → Bool
  | nan, _ => false
  | _, nan => false
  | ninf, ninf => false
  | ninf, _ => true
  | pinf, _ => false
  | _, pinf => true
  | fin a, fin b => decide (a < b)
  | fin _, ninf => false

/-- Negation on extended values (exact on every non-NaN input). -/
def EVal.neg : EVal → EVal
  | nan => nan
  | pinf => ninf
  | ninf => pinf
  | fin a => fin (-a)

/-- Multiplication by a positive rational constant, as used by the policy
arithmetic (`* 5`): NaN propagates, infinities keep their sign. -/
def EVal.mulPosConst (x : EVal) (k : ℚ) : EVal :=
  match x with
  | nan => nan
  | pinf => pinf
  | ninf => ninf
  | fin a => fin (a * k)

/-- `np.all(row <= c)` over NaN-extended values. -/
def allLeE (row c : List EVal) : Bool :=
  (List.zipWith (fun x y => EVal.le x y) row c).all id

/-- `np.any(row < c)` over NaN-extended values. -/
def anyLtE (row c : List EVal) : Bool :=
  (List.zipWith (fun x y => EVal.lt x y) row c).any id

/-- The dominance scan of `is_pareto_efficient` over NaN-extended values. -/
def dominatedBySomeE (costs : List (List EVal)) (c : List EVal) : Bool :=
  costs.any (fun row => allLeE row c && anyLtE row c)

/-- `is_pareto_efficient` from `utils.py` over NaN-extended values: the same
code path, with `numpy`'s float comparisons given their IEEE semantics. -/
def is_pareto_efficientE (costs : List (List EVal)) : List Bool :=
  costs.map (fun c => !dominatedBySomeE costs c)

/-- `subvention_policy` over NaN-extended values: `astype(float)` copies and
`-actions * 5` negates and scales elementwise, with IEEE propagation. -/
def subvention_policyE (_self : PolicyState) (actions : List EVal)
    (_actors_priority _avg_incomes _water_pump _avg_pump _is_crisis
      _water_flows _quota : List EVal) (_DOE _DCR : ℚ) : List EVal :=
  let actions := actions.map (fun x => x)
  actions.map (fun x => EVal.mulPosConst (EVal.neg x) 5)

/-- The specification's dominance relation: `cj` dominates `ci` iff it is
`≤` in every objective column and `<` in at least one. -/
def dominates_spec (cj ci : List ℚ) : Prop :=
  (∀ col, col < ci.length → cj.getD col 0 ≤ ci.getD col 0) ∧
  ∃ col, col < ci.length ∧ cj.getD col 0 < ci.getD col 0

lemma zipWith_sub_map_map (f g : ℚ → ℚ) (a : List ℚ) :
    List.zipWith (fun x y => x - y) (a.map f) (a.map g)
      = a.map (fun x => f x - g x) := by
  induction a with
  | nil => rfl
  | cons x xs ih => simp [List.zipWith, ih]

/-- C2: for every action vector `a` (and arbitrary contextual arguments), the
three active policies compute exactly the affine adjustments the spec states:
`subvention(a) = -5*a`, `fine(a) = 5*(1-a)`, `mixed(a) = 5*(0.5-a)`,
elementwise, each output having the same length and ordering as `a` (it is a
`map` over `a`, and its length equals `a.length`). -/
theorem c2_policy_formulas (self : PolicyState) (a p inc wp ap cr wf q : List ℚ)
    (DOE DCR : ℚ) :
    subvention_policy self a p inc wp ap cr wf q DOE DCR
        = a.map (fun x => -5 * x) ∧
    fine_policy self a p inc wp ap cr wf q DOE DCR
        = a.map (fun x => 5 * (1 - x)) ∧
    mixed_policy self a p inc wp ap cr wf q DOE DCR
        = a.map (fun x => 5 * (1/2 - x)) ∧
    (subvention_policy self a p inc wp ap cr wf q DOE DCR).length = a.length ∧
    (fine_policy self a p inc wp ap cr wf q DOE DCR).length = a.length ∧
    (mixed_policy self a p inc wp ap cr wf q DOE DCR).length = a.length := by
  refine ⟨?_, ?_, ?_, ?_, ?_, ?_⟩ <;>
    simp only [subvention_policy, fine_policy, mixed_policy, List.map_map,
      List.length_map] <;>
    first
      | rfl
      | (apply List.map_congr_left; intro x _; simp [Function.comp]; ring)

/-- C6: the consistency law `fine(a) - mixed(a) = mixed(a) - subvention(a)`
holds elementwise for every action vector, and on the instance
`a = [0, 0.5, 1]` the three outputs are `fine = [5, 2.5, 0]`,
`mixed = [2.5, 0, -2.5]`, `subvention = [0, -2.5, -5]`. -/
theorem c6_equal_spacing (self : PolicyState) (a p inc wp ap cr wf q : List ℚ)
    (DOE DCR : ℚ) :
    vecSub (fine_policy self a p inc wp ap cr wf q DOE DCR)
        (mixed_policy self a p inc wp ap cr wf q DOE DCR)
      = vecSub (mixed_policy self a p inc wp ap cr wf q DOE DCR)
          (subvention_policy self a p inc wp ap cr wf q DOE DCR) ∧
    fine_policy ⟨3⟩ [0, 1/2, 1] [] [] [] [] [] [] [] 15 10
      = [5, 5/2, 0] ∧
    mixed_policy ⟨3⟩ [0, 1/2, 1] [] [] [] [] [] [] [] 15 10
      = [5/2, 0, -(5/2)] ∧
    subvention_policy ⟨3⟩ [0, 1/2, 1] [] [] [] [] [] [] [] 15 10
      = [0, -(5/2), -5] := by
  refine ⟨?_, by norm_num [fine_policy], by norm_num [mixed_policy],
    by norm_num [subvention_policy]⟩
  simp only [fine_policy, mixed_policy, subvention_policy, vecSub,
    List.map_map, zipWith_sub_map_map]
  apply List.map_congr_left
  intro x _
  simp [Function.comp]
  ring

/-- C3: when the bound object's `nb_actors` equals the length `n` of the
action vector (the caller contract: all per-actor vectors have length equal
to the actor count) and the actions lie in `[0,1]`, `no_policy` returns the
zero vector of length `n`, the same length as the action vector, regardless
of the action values. -/
theorem c3_no_policy_zero_vector (self : PolicyState) (n : Nat)
    (a p inc wp ap cr wf q : List ℚ) (DOE DCR : ℚ)
    (hself : self.nb_actors = n) (hlen : a.length = n)
    (hvals : ∀ x ∈ a, 0 ≤ x ∧ x ≤ 1) :
    no_policy self a p inc wp ap cr wf q DOE DCR = List.replicate n 0 ∧
    (no_policy self a p inc wp ap cr wf q DOE DCR).length = a.length := by
  constructor
  · simp [no_policy, hself]
  · simp [no_policy, hself, hlen]

/-- Witness for `c3_no_policy_zero_vector` with two actors and actions
`[0, 1]`. -/
theorem c3_no_policy_zero_vector_witness :
    ((PolicyState.mk 2).nb_actors = 2 ∧ ([0, 1] : List ℚ).length = 2 ∧
      ∀ x ∈ ([0, 1] : List ℚ), 0 ≤ x ∧ x ≤ 1) ∧
    (no_policy ⟨2⟩ [0, 1] [] [] [] [] [] [] [] 15 10
        = List.replicate 2 0 ∧
      (no_policy ⟨2⟩ [0, 1] [] [] [] [] [] [] [] 15 10).length
        = ([0, 1] : List ℚ).length) := by
  refine ⟨⟨rfl, rfl, ?_⟩, ?_⟩
  · intro x hx
    simp only [List.mem_cons, List.not_mem_nil, or_false] at hx
    rcases hx with h | h <;> norm_num [h]
  · exact c3_no_policy_zero_vector ⟨2⟩ 2 [0, 1] [] [] [] [] [] [] [] 15 10
      rfl rfl (by
        intro x hx
        simp only [List.mem_cons, List.not_mem_nil, or_false] at hx
        rcases hx with h | h <;> norm_num [h])

/-- C4 counterexample: a call with mismatched per-actor vector lengths does
NOT fail.  `fine_policy` and `mixed_policy` called with an action vector of
length 2 and an `actors_priority` vector of length 3 (lengths differ) return
ordinary adjustment vectors — there is no error path anywhere in these
functions, contradicting the claim that such a call fails with a
ShapeMismatch-class error rather than returning a result. -/
theorem c4_shape_mismatch_counterexample :
    ([0, 1] : List ℚ).length ≠ ([1, 2, 3] : List ℚ).length ∧
    fine_policy ⟨2⟩ [0, 1] [1, 2, 3] [] [] [] [] [] [] 15 10 = [5, 0] ∧
    mixed_policy ⟨2⟩ [0, 1] [1, 2, 3] [] [] [] [] [] [] 15 10
      = [5/2, -(5/2)] := by
  refine ⟨by norm_num, ?_, ?_⟩ <;> norm_num [fine_policy, mixed_policy]

/-- C4 amended: the policy functions perform no shape validation.  A call
whose `actors_priority` vector length differs from the action vector length
does not fail: it silently returns the adjustment vector computed from the
action vector alone, with the action vector's length. -/
theorem c4_no_shape_validation (self : PolicyState)
    (a p inc wp ap cr wf q : List ℚ) (DOE DCR : ℚ)
    (hmis : p.length ≠ a.length) :
    fine_policy self a p inc wp ap cr wf q DOE DCR
        = a.map (fun x => -(x - 1) * 5) ∧
    mixed_policy self a p inc wp ap cr wf q DOE DCR
        = a.map (fun x => -(x - 1/2) * 5) ∧
    (fine_policy self a p inc wp ap cr wf q DOE DCR).length = a.length ∧
    (mixed_policy self a p inc wp ap cr wf q DOE DCR).length = a.length := by
  refine ⟨?_, ?_, ?_, ?_⟩ <;>
    simp only [fine_policy, mixed_policy, List.map_map, List.length_map] <;>
    first
      | rfl
      | (apply List.map_congr_left; intro x _; simp [Function.comp])

/-- Witness for `c4_no_shape_validation` at action vector `[0, 1]` and
priority vector `[1, 2, 3]` of mismatched length. -/
theorem c4_no_shape_validation_witness :
    ([1, 2, 3] : List ℚ).length ≠ ([0, 1] : List ℚ).length ∧
    (fine_policy ⟨2⟩ [0, 1] [1, 2, 3] [] [] [] [] [] [] 15 10
        = ([0, 1] : List ℚ).map (fun x => -(x - 1) * 5) ∧
      mixed_policy ⟨2⟩ [0, 1] [1, 2, 3] [] [] [] [] [] [] 15 10
        = ([0, 1] : List ℚ).map (fun x => -(x - 1/2) * 5) ∧
      (fine_policy ⟨2⟩ [0, 1] [1, 2, 3] [] [] [] [] [] [] 15 10).length
        = ([0, 1] : List ℚ).length ∧
      (mixed_policy ⟨2⟩ [0, 1] [1, 2, 3] [] [] [] [] [] [] 15 10).length
        = ([0, 1] : List ℚ).length) :=
  ⟨by norm_num,
    c4_no_shape_validation ⟨2⟩ [0, 1] [1, 2, 3] [] [] [] [] [] [] 15 10
      (by norm_num)⟩

/-- C9 counterexample: `save_or_create` does NOT succeed on every destination
path.  For a bare filename such as `"fig.png"`, `os.path.dirname` returns the
empty string, `os.path.exists("")` is false, and `os.makedirs("")` raises
`FileNotFoundError` — the figure is never written. -/
theorem c9_bare_filename_counterexample :
    pyDirname "fig.png" = "" ∧
    save_or_create ⟨[], []⟩ "fig.png" = Except.error "FileNotFoundError" := by
  constructor <;> rfl

/-- C9 amended: for every destination path whose directory component is
non-empty, `save_or_create` succeeds: it ensures the destination directory
exists (creating it when absent) and writes the figure to the path.  For a
path with an empty directory component (a bare filename) the call instead
fails inside `os.makedirs("")`. -/
theorem c9_save_or_create_ok (fs : FS) (p : String)
    (hd : pyDirname p ≠ "") :
    ∃ fs', save_or_create fs p = Except.ok fs' ∧
      pathExists fs' (pyDirname p) = true ∧
      fs'.files.contains p = true := by
  rw [save_or_create]
  by_cases hex : pathExists fs (pyDirname p) = false
  · rw [if_pos hex, makedirs, if_neg hd, if_neg (by simp [hex])]
    refine ⟨savefig ⟨pyDirname p :: fs.dirs, fs.files⟩ p, rfl, ?_, ?_⟩
    · simp [pathExists, savefig]
    · simp [savefig]
  · rw [if_neg hex]
    have hex' : pathExists fs (pyDirname p) = true := by
      cases hpe : pathExists fs (pyDirname p)
      · exact absurd hpe hex
      · rfl
    refine ⟨savefig fs p, rfl, ?_, by simp [savefig]⟩
    have hd' : pyDirname p ∈ fs.dirs ∨ pyDirname p ∈ fs.files := by
      simpa [pathExists] using hex'
    rcases hd' with h | h <;> simp [pathExists, savefig, h]

/-- Witness for `c9_save_or_create_ok` at the fresh filesystem and the
path `"plots/fig.png"`. -/
theorem c9_save_or_create_ok_witness :
    pyDirname "plots/fig.png" ≠ "" ∧
    ∃ fs', save_or_create ⟨[], []⟩ "plots/fig.png" = Except.ok fs' ∧
      pathExists fs' (pyDirname "plots/fig.png") = true ∧
      fs'.files.contains "plots/fig.png" = true :=
  ⟨by decide, c9_save_or_create_ok ⟨[], []⟩ "plots/fig.png" (by decide)⟩

lemma readVec_allocVec (h : Heap) (v : List ℚ) (r : Nat)
    (hr : r < h.vecs.length) : readVec (allocVec h v).1 r = readVec h r := by
  simp only [readVec, allocVec]
  exact List.getD_append _ _ _ _ hr

lemma readVec_two_allocs (h : Heap) (v1 v2 : List ℚ) (r : Nat)
    (hr : r < h.vecs.length) :
    readVec (allocVec (allocVec h v1).1 v2).1 r = readVec h r := by
  simp only [readVec, allocVec, List.append_assoc]
  exact List.getD_append _ _ _ _ hr

lemma foldl_writeBVec_frame (eff : Nat) (g : Heap → Nat → Bool) :
    ∀ (l : List Nat) (h : Heap),
      (l.foldl (fun hh i => writeBVec hh eff i (g hh i)) h).vecs = h.vecs ∧
      (l.foldl (fun hh i => writeBVec hh eff i (g hh i)) h).mats = h.mats := by
  intro l
  induction l with
  | nil => intro h; exact ⟨rfl, rfl⟩
  | cons i l ih =>
    intro h
    have := ih (writeBVec h eff i (g h i))
    simpa [writeBVec] using this

/-- C10: no call mutates its array arguments, and every output is freshly
allocated.  Over the heap model: after any of the four policy calls, every
pre-existing float vector (in particular the action vector and the seven
contextual vectors) still holds its old value and the matrix store is
untouched; after `is_pareto_efficient` every pre-existing matrix (in
particular the cost matrix) and the whole vector store are untouched; each
call's returned reference is at or beyond the pre-call allocation frontier,
hence a freshly allocated array, never one of the inputs. -/
theorem c10_no_mutation_fresh_output (h : Heap) (self : PolicyState)
    (actions ap ai wp avp ic wf q costs : Nat) (DOE DCR : ℚ) (r rm : Nat)
    (hr : r < h.vecs.length) (hrm : rm < h.mats.length) :
    (readVec (mixed_policy_heap h self actions ap ai wp avp ic wf q DOE DCR).1 r
        = readVec h r ∧
      readVec (fine_policy_heap h self actions ap ai wp avp ic wf q DOE DCR).1 r
        = readVec h r ∧
      readVec (subvention_policy_heap h self actions ap ai wp avp ic wf q DOE DCR).1 r
        = readVec h r ∧
      readVec (no_policy_heap h self actions ap ai wp avp ic wf q DOE DCR).1 r
        = readVec h r) ∧
    ((mixed_policy_heap h self actions ap ai wp avp ic wf q DOE DCR).1.mats
        = h.mats ∧
      (fine_policy_heap h self actions ap ai wp avp ic wf q DOE DCR).1.mats
        = h.mats ∧
      (subvention_policy_heap h self actions ap ai wp avp ic wf q DOE DCR).1.mats
        = h.mats ∧
      (no_policy_heap h self actions ap ai wp avp ic wf q DOE DCR).1.mats
        = h.mats) ∧
    (readMat (is_pareto_efficient_heap h costs).1 rm = readMat h rm ∧
      (is_pareto_efficient_heap h costs).1.vecs = h.vecs) ∧
    (h.vecs.length ≤ (mixed_policy_heap h self actions ap ai wp avp ic wf q DOE DCR).2 ∧
      h.vecs.length ≤ (fine_policy_heap h self actions ap ai wp avp ic wf q DOE DCR).2 ∧
      h.vecs.length ≤ (subvention_policy_heap h self actions ap ai wp avp ic wf q DOE DCR).2 ∧
      h.vecs.length ≤ (no_policy_heap h self actions ap ai wp avp ic wf q DOE DCR).2 ∧
      h.bvecs.length ≤ (is_pareto_efficient_heap h costs).2) := by
  refine ⟨⟨?_, ?_, ?_, ?_⟩, ⟨rfl, rfl, rfl, rfl⟩, ⟨?_, ?_⟩, ?_, ?_, ?_, ?_, ?_⟩
  · exact readVec_two_allocs h _ _ r hr
  · exact readVec_two_allocs h _ _ r hr
  · exact readVec_two_allocs h _ _ r hr
  · exact readVec_allocVec h _ r hr
  · have hm := (foldl_writeBVec_frame h.bvecs.length
      (fun hh i => !dominatedBySome (readMat hh costs)
        ((readMat hh costs).getD i []))
      (List.range (readMat h costs).length)
      ⟨h.vecs, h.mats, h.bvecs ++ [List.replicate (readMat h costs).length true]⟩).2
    simp only [readMat] at hm ⊢
    simp only [is_pareto_efficient_heap, allocBVec, readMat]
    rw [hm]
  · have hv := (foldl_writeBVec_frame h.bvecs.length
      (fun hh i => !dominatedBySome (readMat hh costs)
        ((readMat hh costs).getD i []))
      (List.range (readMat h costs).length)
      ⟨h.vecs, h.mats, h.bvecs ++ [List.replicate (readMat h costs).length true]⟩).1
    simp only [readMat] at hv ⊢
    simp only [is_pareto_efficient_heap, allocBVec, readMat]
    rw [hv]
  · simp [mixed_policy_heap, allocVec]
  · simp [fine_policy_heap, allocVec]
  · simp [subvention_policy_heap, allocVec]
  · simp [no_policy_heap, allocVec]
  · simp [is_pareto_efficient_heap, allocBVec]

/-- Witness for `c10_no_mutation_fresh_output` on a one-vector, one-matrix
heap. -/
theorem c10_no_mutation_fresh_output_witness :
    ((0 : Nat) < (Heap.mk [[1]] [[[1]]] []).vecs.length ∧
      (0 : Nat) < (Heap.mk [[1]] [[[1]]] []).mats.length) ∧
    (readVec (mixed_policy_heap ⟨[[1]], [[[1]]], []⟩ ⟨1⟩ 0 0 0 0 0 0 0 0 15 10).1 0
        = readVec ⟨[[1]], [[[1]]], []⟩ 0 ∧
      readVec (fine_policy_heap ⟨[[1]], [[[1]]], []⟩ ⟨1⟩ 0 0 0 0 0 0 0 0 15 10).1 0
        = readVec ⟨[[1]], [[[1]]], []⟩ 0 ∧
      readVec (subvention_policy_heap ⟨[[1]], [[[1]]], []⟩ ⟨1⟩ 0 0 0 0 0 0 0 0 15 10).1 0
        = readVec ⟨[[1]], [[[1]]], []⟩ 0 ∧
      readVec (no_policy_heap ⟨[[1]], [[[1]]], []⟩ ⟨1⟩ 0 0 0 0 0 0 0 0 15 10).1 0
        = readVec ⟨[[1]], [[[1]]], []⟩ 0) ∧
    ((mixed_policy_heap ⟨[[1]], [[[1]]], []⟩ ⟨1⟩ 0 0 0 0 0 0 0 0 15 10).1.mats
        = (Heap.mk [[1]] [[[1]]] []).mats ∧
      (fine_policy_heap ⟨[[1]], [[[1]]], []⟩ ⟨1⟩ 0 0 0 0 0 0 0 0 15 10).1.mats
        = (Heap.mk [[1]] [[[1]]] []).mats ∧
      (subvention_policy_heap ⟨[[1]], [[[1]]], []⟩ ⟨1⟩ 0 0 0 0 0 0 0 0 15 10).1.mats
        = (Heap.mk [[1]] [[[1]]] []).mats ∧
      (no_policy_heap ⟨[[1]], [[[1]]], []⟩ ⟨1⟩ 0 0 0 0 0 0 0 0 15 10).1.mats
        = (Heap.mk [[1]] [[[1]]] []).mats) ∧
    (readMat (is_pareto_efficient_heap ⟨[[1]], [[[1]]], []⟩ 0).1 0
        = readMat ⟨[[1]], [[[1]]], []⟩ 0 ∧
      (is_pareto_efficient_heap ⟨[[1]], [[[1]]], []⟩ 0).1.vecs
        = (Heap.mk [[1]] [[[1]]] []).vecs) ∧
    ((Heap.mk [[1]] [[[1]]] []).vecs.length
        ≤ (mixed_policy_heap ⟨[[1]], [[[1]]], []⟩ ⟨1⟩ 0 0 0 0 0 0 0 0 15 10).2 ∧
      (Heap.mk [[1]] [[[1]]] []).vecs.length
        ≤ (fine_policy_heap ⟨[[1]], [[[1]]], []⟩ ⟨1⟩ 0 0 0 0 0 0 0 0 15 10).2 ∧
      (Heap.mk [[1]] [[[1]]] []).vecs.length
        ≤ (subvention_policy_heap ⟨[[1]], [[[1]]], []⟩ ⟨1⟩ 0 0 0 0 0 0 0 0 15 10).2 ∧
      (Heap.mk [[1]] [[[1]]] []).vecs.length
        ≤ (no_policy_heap ⟨[[1]], [[[1]]], []⟩ ⟨1⟩ 0 0 0 0 0 0 0 0 15 10).2 ∧
      (Heap.mk [[1]] [[[1]]] []).bvecs.length
        ≤ (is_pareto_efficient_heap ⟨[[1]], [[[1]]], []⟩ 0).2) :=
  ⟨⟨by decide, by decide⟩,
    c10_no_mutation_fresh_output ⟨[[1]], [[[1]]], []⟩ ⟨1⟩ 0 0 0 0 0 0 0 0 0 15 10
      0 0 (by decide) (by decide)⟩

/-- C5 counterexample: a cost matrix containing NaN does NOT make
`is_pareto_efficient` surface an error — the function has no finiteness check
and no error path, and on `[[NaN]]` it silently returns the mask `[True]`
(all comparisons against NaN are false, so nothing is marked dominated). -/
theorem c5_nan_counterexample :
    is_pareto_efficientE [[EVal.nan]] = [true] := rfl

/-- C5 amended: neither `is_pareto_efficient` nor the policy functions check
for non-finite values; they silently compute with them.  `is_pareto_efficient`
always returns a mask of full length; with NaN entries the IEEE comparisons
are all false, so a row containing NaN in some objective is never marked
dominated (e.g. `[[0,0],[NaN,1]]` yields `[True, True]` although row 1 is
worse wherever comparable); `subvention_policy` propagates NaN into the
adjustment vector. -/
theorem c5_nonfinite_silently_processed :
    (∀ costs : List (List EVal),
      (is_pareto_efficientE costs).length = costs.length) ∧
    is_pareto_efficientE [[EVal.fin 0, EVal.fin 0], [EVal.nan, EVal.fin 1]]
      = [true, true] ∧
    subvention_policyE ⟨1⟩ [EVal.nan] [] [] [] [] [] [] [] 15 10
      = [EVal.nan] := by
  refine ⟨fun costs => by simp [is_pareto_efficientE], ?_, rfl⟩
  simp only [is_pareto_efficientE, dominatedBySomeE, allLeE, anyLtE,
    List.map, List.any_cons, List.any_nil, List.zipWith, List.all_cons,
    List.all_nil, EVal.le, EVal.lt]
  norm_num

lemma allLe_cons (x y : ℚ) (xs ys : List ℚ) :
    allLe (x :: xs) (y :: ys) = (decide (x ≤ y) && allLe xs ys) := rfl

lemma anyLt_cons (x y : ℚ) (xs ys : List ℚ) :
    anyLt (x :: xs) (y :: ys) = (decide (x < y) || anyLt xs ys) := rfl

lemma allLe_iff (r : List ℚ) : ∀ (c : List ℚ), r.length = c.length →
    (allLe r c = true ↔ ∀ k, k < c.length → r.getD k 0 ≤ c.getD k 0) := by
  induction r with
  | nil =>
    intro c h
    cases c with
    | nil => simp [allLe]
    | cons y ys => simp at h
  | cons x xs ih =>
    intro c h
    cases c with
    | nil => simp at h
    | cons y ys =>
      have h' : xs.length = ys.length := by simpa using h
      rw [allLe_cons, Bool.and_eq_true, decide_eq_true_eq, ih ys h']
      constructor
      · rintro ⟨hxy, hrest⟩ k hk
        cases k with
        | zero => simpa using hxy
        | succ k => simpa using hrest k (by simpa using hk)
      · intro hall
        refine ⟨by simpa using hall 0 (by simp), fun k hk => ?_⟩
        simpa using hall (k + 1) (by simpa using hk)

lemma anyLt_iff (r : List ℚ) : ∀ (c : List ℚ), r.length = c.length →
    (anyLt r c = true ↔ ∃ k, k < c.length ∧ r.getD k 0 < c.getD k 0) := by
  induction r with
  | nil =>
    intro c h
    cases c with
    | nil => simp [anyLt]
    | cons y ys => simp at h
  | cons x xs ih =>
    intro c h
    cases c with
    | nil => simp at h
    | cons y ys =>
      have h' : xs.length = ys.length := by simpa using h
      rw [anyLt_cons, Bool.or_eq_true, decide_eq_true_eq, ih ys h']
      constructor
      · rintro (hxy | ⟨k, hk, hlt⟩)
        · exact ⟨0, by simp, by simpa using hxy⟩
        · exact ⟨k + 1, by simpa using hk, by simpa using hlt⟩
      · rintro ⟨k, hk, hlt⟩
        cases k with
        | zero => exact Or.inl (by simpa using hlt)
        | succ k => exact Or.inr ⟨k, by simpa using hk, by simpa using hlt⟩

/-- No row strictly improves on itself: `np.any(c < c)` is false. -/
lemma anyLt_self (c : List ℚ) : anyLt c c = false := by
  induction c with
  | nil => rfl
  | cons x xs ih => simp [anyLt_cons, ih]

lemma dominatedBySome_iff (costs : List (List ℚ)) (c : List ℚ) (m : Nat)
    (hc : c.length = m) (hrect : ∀ row ∈ costs, row.length = m) :
    dominatedBySome costs c = true ↔
      ∃ j, j < costs.length ∧ dominates_spec (costs.getD j []) c := by
  rw [dominatedBySome, List.any_eq_true]
  constructor
  · rintro ⟨row, hmem, hrow⟩
    rw [Bool.and_eq_true] at hrow
    obtain ⟨j, hj, hget⟩ := List.mem_iff_getElem.mp hmem
    have hlen : row.length = c.length := by rw [hrect row hmem, hc]
    refine ⟨j, hj, ?_, ?_⟩
    · rw [List.getD_eq_getElem _ _ hj, hget]
      exact (allLe_iff row c hlen).mp hrow.1
    · rw [List.getD_eq_getElem _ _ hj, hget]
      exact (anyLt_iff row c hlen).mp hrow.2
  · rintro ⟨j, hj, hall, hany⟩
    refine ⟨costs.getD j [], ?_, ?_⟩
    · rw [List.getD_eq_getElem _ _ hj]
      exact List.getElem_mem hj
    · have hmem : costs.getD j [] ∈ costs := by
        rw [List.getD_eq_getElem _ _ hj]
        exact List.getElem_mem hj
      have hlen : (costs.getD j []).length = c.length := by
        rw [hrect _ hmem, hc]
      rw [Bool.and_eq_true]
      exact ⟨(allLe_iff _ c hlen).mpr hall, (anyLt_iff _ c hlen).mpr hany⟩

/-- C1: on a rectangular cost matrix with at least one row and one column,
`is_pareto_efficient` returns a boolean vector of the same length as the list
of rows, and entry `i` is `true` exactly when no row `j` satisfies the
dominance predicate against row `i` (`≤` in every objective column, `<` in at
least one).  The scan ranges over all `j` including `i` itself, harmlessly,
since no row strictly improves on itself. -/
theorem c1_pareto_matches_spec (costs : List (List ℚ)) (m : Nat)
    (hm : 1 ≤ m) (hn : 1 ≤ costs.length)
    (hrect : ∀ row ∈ costs, row.length = m) :
    (is_pareto_efficient costs).length = costs.length ∧
    ∀ i, i < costs.length →
      ((is_pareto_efficient costs).getD i false = true ↔
        ¬ ∃ j, j < costs.length ∧
          dominates_spec (costs.getD j []) (costs.getD i [])) := by
  refine ⟨by simp [is_pareto_efficient], fun i hi => ?_⟩
  have hmem : costs.getD i [] ∈ costs := by
    rw [List.getD_eq_getElem _ _ hi]
    exact List.getElem_mem hi
  have hlen : (is_pareto_efficient costs).length = costs.length := by
    simp [is_pareto_efficient]
  have hentry : (is_pareto_efficient costs).getD i false
      = !dominatedBySome costs (costs.getD i []) := by
    rw [List.getD_eq_getElem _ _ (by rw [hlen]; exact hi)]
    simp only [is_pareto_efficient, List.getElem_map]
    rw [List.getD_eq_getElem _ _ hi]
  rw [hentry, Bool.not_eq_true', ← Bool.not_eq_true,
    dominatedBySome_iff costs _ m (hrect _ hmem) hrect]

/-- Witness for `c1_pareto_matches_spec` on the spec's worked example
`[[1,1],[2,2],[1,2]]`: its hypotheses hold and the conclusion is obtained by
applying the theorem. -/
theorem c1_pareto_matches_spec_witness :
    (1 ≤ 2 ∧ 1 ≤ ([[1, 1], [2, 2], [1, 2]] : List (List ℚ)).length ∧
      ∀ row ∈ ([[1, 1], [2, 2], [1, 2]] : List (List ℚ)), row.length = 2) ∧
    ((is_pareto_efficient [[1, 1], [2, 2], [1, 2]]).length
        = ([[1, 1], [2, 2], [1, 2]] : List (List ℚ)).length ∧
      ∀ i, i < ([[1, 1], [2, 2], [1, 2]] : List (List ℚ)).length →
        ((is_pareto_efficient [[1, 1], [2, 2], [1, 2]]).getD i false = true ↔
          ¬ ∃ j, j < ([[1, 1], [2, 2], [1, 2]] : List (List ℚ)).length ∧
            dominates_spec (([[1, 1], [2, 2], [1, 2]] : List (List ℚ)).getD j [])
              (([[1, 1], [2, 2], [1, 2]] : List (List ℚ)).getD i []))) := by
  refine ⟨⟨by norm_num, by norm_num, ?_⟩, ?_⟩
  · intro row hrow
    simp only [List.mem_cons, List.not_mem_nil, or_false] at hrow
    rcases hrow with h | h | h <;> simp [h]
  · exact c1_pareto_matches_spec [[1, 1], [2, 2], [1, 2]] 2 (by norm_num)
      (by norm_num) (by
        intro row hrow
        simp only [List.mem_cons, List.not_mem_nil, or_false] at hrow
        rcases hrow with h | h | h <;> simp [h])

/-- C7: when two rows of a cost matrix are identical, the dominance test the
code runs between them is false in both directions (dominance requires a
strict improvement in some column, and no value is `<` itself), and on the
spec's tie example `[[1,1],[1,1]]` the whole mask is `[true, true]`. -/
theorem c7_identical_rows_tie (costs : List (List ℚ)) (i j : Nat)
    (hi : i < costs.length) (hj : j < costs.length)
    (heq : costs.getD i [] = costs.getD j []) :
    (allLe (costs.getD j []) (costs.getD i []) &&
        anyLt (costs.getD j []) (costs.getD i [])) = false ∧
    (allLe (costs.getD i []) (costs.getD j []) &&
        anyLt (costs.getD i []) (costs.getD j [])) = false ∧
    is_pareto_efficient [[1, 1], [1, 1]] = [true, true] := by
  refine ⟨?_, ?_, ?_⟩
  · rw [← heq, anyLt_self, Bool.and_false]
  · rw [heq, anyLt_self, Bool.and_false]
  · simp only [is_pareto_efficient, dominatedBySome, allLe, anyLt, List.map,
      List.any_cons, List.any_nil, List.zipWith, List.all_cons, List.all_nil]
    norm_num

/-- Witness for `c7_identical_rows_tie` at the tie matrix `[[1,1],[1,1]]`
with rows `0` and `1`. -/
theorem c7_identical_rows_tie_witness :
    ((0 : Nat) < ([[1, 1], [1, 1]] : List (List ℚ)).length ∧
      (1 : Nat) < ([[1, 1], [1, 1]] : List (List ℚ)).length ∧
      ([[1, 1], [1, 1]] : List (List ℚ)).getD 0 []
        = ([[1, 1], [1, 1]] : List (List ℚ)).getD 1 []) ∧
    ((allLe (([[1, 1], [1, 1]] : List (List ℚ)).getD 1 [])
          (([[1, 1], [1, 1]] : List (List ℚ)).getD 0 []) &&
        anyLt (([[1, 1], [1, 1]] : List (List ℚ)).getD 1 [])
          (([[1, 1], [1, 1]] : List (List ℚ)).getD 0 [])) = false ∧
      (allLe (([[1, 1], [1, 1]] : List (List ℚ)).getD 0 [])
          (([[1, 1], [1, 1]] : List (List ℚ)).getD 1 []) &&
        anyLt (([[1, 1], [1, 1]] : List (List ℚ)).getD 0 [])
          (([[1, 1], [1, 1]] : List (List ℚ)).getD 1 [])) = false ∧
      is_pareto_efficient [[1, 1], [1, 1]] = [true, true]) :=
  ⟨⟨by norm_num, by norm_num, rfl⟩,
    c7_identical_rows_tie [[1, 1], [1, 1]] 0 1 (by norm_num) (by norm_num) rfl⟩

/-- C8: the contextual arguments (`actors_priority`, `avg_incomes`,
`water_pump`, `avg_pump`, `is_crisis`, `water_flows`, `quota`, `DOE`, `DCR`)
do not influence the output of any of the four policy functions: two calls
with the same bound object and the same action vector but arbitrarily
different contextual arguments return identical adjustment vectors. -/
theorem c8_context_noninterference (self : PolicyState) (a : List ℚ)
    (p1 inc1 wp1 ap1 cr1 wf1 q1 p2 inc2 wp2 ap2 cr2 wf2 q2 : List ℚ)
    (DOE1 DCR1 DOE2 DCR2 : ℚ) :
    mixed_policy self a p1 inc1 wp1 ap1 cr1 wf1 q1 DOE1 DCR1
        = mixed_policy self a p2 inc2 wp2 ap2 cr2 wf2 q2 DOE2 DCR2 ∧
    fine_policy self a p1 inc1 wp1 ap1 cr1 wf1 q1 DOE1 DCR1
        = fine_policy self a p2 inc2 wp2 ap2 cr2 wf2 q2 DOE2 DCR2 ∧
    subvention_policy self a p1 inc1 wp1 ap1 cr1 wf1 q1 DOE1 DCR1
        = subvention_policy self a p2 inc2 wp2 ap2 cr2 wf2 q2 DOE2 DCR2 ∧
    no_policy self a p1 inc1 wp1 ap1 cr1 wf1 q1 DOE1 DCR1
        = no_policy self a p2 inc2 wp2 ap2 cr2 wf2 q2 DOE2 DCR2 :=
  ⟨rfl, rfl, rfl, rfl⟩
